import Mathlib

/-!
Verification of the client-side outgoing gate of the breakwater-grpc
admission-control layer (`src/breakwater/client_interceptor.go`).

The Go code stores the client state in three channels:
* `pendingOutgoing`, a buffered channel holding one token per queued request;
* `outgoingCredits`, a capacity-one channel holding the credit counter;
* `noCreditBlocker`, a capacity-one channel used as a binary wake signal.

We embed the state as the channel contents (queue length, counter value,
whether the wake channel holds a token).  The interceptor's waiting loop
blocks on `noCreditBlocker` each iteration; concurrent completions may both
signal the blocker and rewrite `outgoingCredits` between our iterations, so a
run of the loop is driven by a list of observations, one per wake-up: the
elapsed time measured after the wake and the value received from the
`outgoingCredits` channel at that iteration.
-/

namespace Breakwater

/-- Client-side mutable state of a Breakwater instance as used by
`client_interceptor.go`: the buffered `pendingOutgoing` channel is modelled by
the number of tokens it holds, the capacity-one `outgoingCredits` channel by
the integer it holds, and the capacity-one `noCreditBlocker` channel by
whether it currently holds a token. -/
structure BWState where
  pendingOutgoing : Nat
  outgoingCredits : Int
  noCreditBlocker : Bool
deriving Repr, DecidableEq

/-- Go `getDemand` (client_interceptor.go, lines 18-20): returns
`len(b.pendingOutgoing)`. -/
def getDemand (s : BWState) : Nat := s.pendingOutgoing

/-- Go `queueRequest` (lines 26-33): non-blocking send of a token on
`pendingOutgoing`; the send succeeds iff the channel, of capacity `cap`, is
not full, otherwise the `default` branch reports failure. -/
def queueRequest (cap : Nat) (s : BWState) : Bool × BWState :=
  if s.pendingOutgoing < cap then
    (true, { s with pendingOutgoing := s.pendingOutgoing + 1 })
  else
    (false, s)

/-- Go `dequeueRequest` (lines 39-46): non-blocking receive on
`pendingOutgoing`; succeeds iff the channel is non-empty. -/
def dequeueRequest (s : BWState) : Bool × BWState :=
  if 0 < s.pendingOutgoing then
    (true, { s with pendingOutgoing := s.pendingOutgoing - 1 })
  else
    (false, s)

/-- Go `unblockNoCreditBlock` (lines 51-58): non-blocking send on the
capacity-one `noCreditBlocker` channel; whether or not the send succeeds, the
channel holds a token afterwards. -/
def unblockNoCreditBlock (s : BWState) : BWState :=
  { s with noCreditBlocker := true }

/-- One wake-up of the waiting loop of `UnaryInterceptorClient` (lines
76-121): `timeTaken` is the value of `time.Since(timeStart).Microseconds()`
observed right after this wake, and `creditRead` is the value received from
the `outgoingCredits` channel at line 99 in this iteration (concurrent
completions may have changed it since this goroutine's previous write). -/
structure GateObs where
  timeTaken : Int
  creditRead : Int
deriving Repr, DecidableEq

/-- Outcome of the waiting loop: the request expired in the queue, it was
admitted with the credit balance that was read, or the wake-observation list
was exhausted while the goroutine was still blocked at line 80. -/
inductive LoopOutcome where
  | expired : LoopOutcome
  | admitted : Int → LoopOutcome
  | blocked : LoopOutcome
deriving Repr, DecidableEq

/-- The `for` loop of `UnaryInterceptorClient` (lines 76-121).  Each
iteration consumes a wake token from `noCreditBlocker` (line 80), checks
expiration (lines 85-95), then receives the credit balance (line 99): a
positive balance is decremented and written back, with a cascade wake when
credits remain (lines 100-111); otherwise `0` is written back and the loop
repeats (lines 112-117).  Returns the outcome, the state after the loop, and
the ordered list of values this run sent to `outgoingCredits`. -/
def gateLoop (useClientTimeExpiration : Bool) (clientExpiration : Int) :
    List GateObs → BWState → LoopOutcome × BWState × List Int
  | [], s => (LoopOutcome.blocked, s, [])
  | o :: rest, s =>
    let s0 : BWState := { s with noCreditBlocker := false }
    if useClientTimeExpiration = true ∧ clientExpiration < o.timeTaken then
      (LoopOutcome.expired, (dequeueRequest (unblockNoCreditBlock s0)).2, [])
    else
      if 0 < o.creditRead then
        let bal : Int := o.creditRead - 1
        let s1 : BWState := { s0 with outgoingCredits := bal }
        let s2 : BWState := if 0 < bal then unblockNoCreditBlock s1 else s1
        (LoopOutcome.admitted o.creditRead, s2, [bal])
      else
        let s1 : BWState := { s0 with outgoingCredits := 0 }
        let r := gateLoop useClientTimeExpiration clientExpiration rest s1
        (r.1, r.2.1, 0 :: r.2.2)

/-- Oracle inputs for one invocation of `UnaryInterceptorClient`: the wake
observations driving the waiting loop, whether the invoker returned an error
(line 134), the parsed `credits` response header if present (lines 150-151,
with parse failures yielding `0`), whether the non-blocking receive at line
139 found a value, and the value received from `outgoingCredits` in the
post-invocation section (lines 139, 155 or 161). -/
structure CallObs where
  wakes : List GateObs
  invokeErr : Bool
  creditsHeader : Option Int
  failReadAvail : Bool
  postRead : Int
deriving Repr, DecidableEq

/-- Status returned by one invocation of the interceptor. -/
inductive CallResult where
  | queueFull : CallResult
  | expired : CallResult
  | blocked : CallResult
  | ok : CallResult
  | transportErr : CallResult
deriving Repr, DecidableEq

/-- Observable trace of one invocation: the returned status, whether the
transport invoker was called, the `id`/`demand` outbound metadata if it was
attached, the values sent to `outgoingCredits` by the waiting loop and by the
post-invocation section, and the final state. -/
structure CallTrace where
  result : CallResult
  invoked : Bool
  metaSent : Option (String × Nat)
  gateWrites : List Int
  postWrites : List Int
  finalState : BWState
deriving Repr, DecidableEq

/-- All values one invocation sent to the `outgoingCredits` channel, in
program order. -/
def creditWrites (t : CallTrace) : List Int := t.gateWrites ++ t.postWrites

/-- Go `UnaryInterceptorClient` (lines 60-166).  The booleans
`useClientQueueLength`, `useClientTimeExpiration` and `creditsOnFail` and the
capacity `cap` of `pendingOutgoing` are declared outside this source file and
are passed as parameters.  The function enqueues (lines 66-69), runs the
waiting loop (lines 76-121), samples demand and attaches metadata (lines
124-126), dequeues (line 131), invokes the transport (line 134), and ingests
the result (lines 135-165). -/
def UnaryInterceptorClient (useClientQueueLength useClientTimeExpiration creditsOnFail : Bool)
    (cap : Nat) (clientExpiration : Int) (id : String) (obs : CallObs) (s : BWState) :
    CallTrace :=
  let q := queueRequest cap s
  if useClientQueueLength = true ∧ q.1 = false then
    { result := CallResult.queueFull, invoked := false, metaSent := none,
      gateWrites := [], postWrites := [], finalState := q.2 }
  else
    match gateLoop useClientTimeExpiration clientExpiration obs.wakes q.2 with
    | (LoopOutcome.expired, s2, tr) =>
      { result := CallResult.expired, invoked := false, metaSent := none,
        gateWrites := tr, postWrites := [], finalState := s2 }
    | (LoopOutcome.blocked, s2, tr) =>
      { result := CallResult.blocked, invoked := false, metaSent := none,
        gateWrites := tr, postWrites := [], finalState := s2 }
    | (LoopOutcome.admitted _, s2, tr) =>
      let demand : Nat := getDemand s2
      let s3 : BWState := (dequeueRequest s2).2
      if obs.invokeErr = true then
        if creditsOnFail = true then
          let pw : List Int × BWState :=
            if obs.failReadAvail = true then
              ([obs.postRead + 1], { s3 with outgoingCredits := obs.postRead + 1 })
            else
              ([], s3)
          { result := CallResult.transportErr, invoked := true, metaSent := some (id, demand),
            gateWrites := tr, postWrites := pw.1,
            finalState := unblockNoCreditBlock pw.2 }
        else
          { result := CallResult.transportErr, invoked := true, metaSent := some (id, demand),
            gateWrites := tr, postWrites := [], finalState := s3 }
      else
        match obs.creditsHeader with
        | some cXNew =>
          { result := CallResult.ok, invoked := true, metaSent := some (id, demand),
            gateWrites := tr, postWrites := [max cXNew 1],
            finalState := unblockNoCreditBlock { s3 with outgoingCredits := max cXNew 1 } }
        | none =>
          { result := CallResult.ok, invoked := true, metaSent := some (id, demand),
            gateWrites := tr, postWrites := [max obs.postRead 1],
            finalState := unblockNoCreditBlock { s3 with outgoingCredits := max obs.postRead 1 } }

/-- Modelled from the spec: the boolean `useClientQueueLength` is declared in
a file of this repository outside `client_interceptor.go` that is not under
src/; §4.3 step 1 of the spec makes a full `pending_outgoing` queue an
immediate ResourceExhausted failure, so the flag is modelled as `true`. -/
def useClientQueueLengthFlag : Bool := true

/-- Helper: a run of the waiting loop that ends in admission read a strictly
positive balance at its final wake-up, wrote back that balance minus one, and
every earlier iteration read a non-positive balance and wrote back `0`. -/
theorem gateLoop_admitted_shape (ue : Bool) (exp : Int) (ws : List GateObs) :
    ∀ (s : BWState) (b : Int) (s' : BWState) (tr : List Int),
      gateLoop ue exp ws s = (LoopOutcome.admitted b, s', tr) →
      0 < b ∧ ∃ pre o rest, ws = pre ++ o :: rest ∧ o.creditRead = b ∧
        tr = List.replicate pre.length 0 ++ [b - 1] ∧
        ∀ p ∈ pre, p.creditRead ≤ 0 := by
  induction ws with
  | nil =>
    intro s b s' tr h
    simp [gateLoop] at h
  | cons o rest ih =>
    intro s b s' tr h
    simp only [gateLoop] at h
    by_cases hexp : ue = true ∧ exp < o.timeTaken
    · rw [if_pos hexp] at h
      simp at h
    · rw [if_neg hexp] at h
      by_cases hcr : 0 < o.creditRead
      · rw [if_pos hcr] at h
        simp only [Prod.mk.injEq, LoopOutcome.admitted.injEq] at h
        obtain ⟨hb, _, htr⟩ := h
        subst hb
        exact ⟨hcr, [], o, rest, rfl, rfl, by simpa using htr.symm, by simp⟩
      · rw [if_neg hcr] at h
        simp only [Prod.mk.injEq] at h
        obtain ⟨h1, h2, h3⟩ := h
        obtain ⟨hb, pre, o', rest', hws, hcr', htr, hpre⟩ :=
          ih _ b (gateLoop ue exp rest _).2.1 (gateLoop ue exp rest _).2.2
            (by rw [← h1])
        refine ⟨hb, o :: pre, o', rest', by rw [hws]; simp, hcr', ?_, ?_⟩
        · rw [← h3, htr]
          simp [List.replicate_succ]
        · intro p hp
          rcases List.mem_cons.mp hp with hp | hp
          · subst hp; omega
          · exact hpre p hp

/-- Helper: if every balance received from `outgoingCredits` during the
waiting loop is non-negative, so is every value the loop writes back. -/
theorem gateLoop_writes_nonneg (ue : Bool) (exp : Int) (ws : List GateObs) :
    ∀ s : BWState, (∀ o ∈ ws, 0 ≤ o.creditRead) →
      ∀ w ∈ (gateLoop ue exp ws s).2.2, 0 ≤ w := by
  induction ws with
  | nil =>
    intro s _ w hw
    simp [gateLoop] at hw
  | cons o rest ih =>
    intro s hws w hw
    simp only [gateLoop] at hw
    by_cases hexp : ue = true ∧ exp < o.timeTaken
    · rw [if_pos hexp] at hw
      simp at hw
    · rw [if_neg hexp] at hw
      by_cases hcr : 0 < o.creditRead
      · rw [if_pos hcr] at hw
        simp only [List.mem_singleton] at hw
        omega
      · rw [if_neg hcr] at hw
        rcases List.mem_cons.mp hw with hw | hw
        · omega
        · exact ih _ (fun p hp => hws p (List.mem_cons_of_mem o hp)) w hw

/-- Helper: a run of the waiting loop that ends in admission leaves the
length of `pendingOutgoing` unchanged (only the expiration path dequeues). -/
theorem gateLoop_admitted_pending (ue : Bool) (exp : Int) (ws : List GateObs) :
    ∀ (s : BWState) (b : Int) (s' : BWState) (tr : List Int),
      gateLoop ue exp ws s = (LoopOutcome.admitted b, s', tr) →
      s'.pendingOutgoing = s.pendingOutgoing := by
  induction ws with
  | nil =>
    intro s b s' tr h
    simp [gateLoop] at h
  | cons o rest ih =>
    intro s b s' tr h
    simp only [gateLoop] at h
    by_cases hexp : ue = true ∧ exp < o.timeTaken
    · rw [if_pos hexp] at h
      simp at h
    · rw [if_neg hexp] at h
      by_cases hcr : 0 < o.creditRead
      · rw [if_pos hcr] at h
        simp only [Prod.mk.injEq] at h
        obtain ⟨_, h2, _⟩ := h
        subst h2
        by_cases hb : (0 : Int) < o.creditRead - 1 <;>
          simp [unblockNoCreditBlock, hb]
      · rw [if_neg hcr] at h
        simp only [Prod.mk.injEq] at h
        obtain ⟨h1, h2, _⟩ := h
        have := ih { s with outgoingCredits := 0, noCreditBlocker := false } b
          (gateLoop ue exp rest _).2.1 (gateLoop ue exp rest _).2.2 (by rw [← h1])
        rw [← h2]
        exact this

/-- Helper: when the loop is woken with every earlier wake-up having found a
non-positive balance and not exceeded the deadline, and the present wake-up's
elapsed time exceeds `clientExpiration` with expiration enabled, the loop
returns the expired outcome, with the wake signal re-sent and one token
removed from `pendingOutgoing`. -/
theorem gateLoop_expired_run (exp : Int) (pre : List GateObs) :
    ∀ (s : BWState) (o : GateObs) (rest : List GateObs),
      exp < o.timeTaken →
      (∀ p ∈ pre, p.timeTaken ≤ exp ∧ p.creditRead ≤ 0) →
      ∃ s' tr, gateLoop true exp (pre ++ o :: rest) s = (LoopOutcome.expired, s', tr) ∧
        s'.noCreditBlocker = true ∧
        s'.pendingOutgoing = s.pendingOutgoing - 1 ∧
        tr = List.replicate pre.length 0 := by
  induction pre with
  | nil =>
    intro s o rest ho _
    refine ⟨(dequeueRequest (unblockNoCreditBlock { s with noCreditBlocker := false })).2, [],
      ?_, ?_, ?_, rfl⟩
    · simp only [List.nil_append, gateLoop]
      rw [if_pos ⟨trivial, ho⟩]
    · simp only [dequeueRequest, unblockNoCreditBlock]
      split <;> rfl
    · simp only [dequeueRequest, unblockNoCreditBlock]
      split <;> simp_all
  | cons p pre' ih =>
    intro s o rest ho hpre
    obtain ⟨hpt, hpc⟩ := hpre p (List.mem_cons_self p pre')
    obtain ⟨s', tr, hgl, hblk, hpend, htr⟩ :=
      ih { s with outgoingCredits := 0, noCreditBlocker := false } o rest ho
        (fun q hq => hpre q (List.mem_cons_of_mem p hq))
    refine ⟨s', 0 :: tr, ?_, hblk, by simpa using hpend, by simp [htr, List.replicate_succ]⟩
    simp only [List.cons_append, gateLoop]
    rw [if_neg (by push_neg; intro _; omega), if_neg (by omega)]
    simp [hgl]

/-- Helper: the transport invoker runs only when the enqueue check passed and
the waiting loop ended in admission. -/
theorem UnaryInterceptorClient_invoked_cases (uq ue cf : Bool) (cap : Nat) (exp : Int)
    (id : String) (obs : CallObs) (s : BWState)
    (h : (UnaryInterceptorClient uq ue cf cap exp id obs s).invoked = true) :
    ¬(uq = true ∧ (queueRequest cap s).1 = false) ∧
    ∃ b s2 tr, gateLoop ue exp obs.wakes (queueRequest cap s).2 =
      (LoopOutcome.admitted b, s2, tr) := by
  by_cases hq : uq = true ∧ (queueRequest cap s).1 = false
  · rw [UnaryInterceptorClient, if_pos hq] at h
    simp at h
  · refine ⟨hq, ?_⟩
    rcases hgl : gateLoop ue exp obs.wakes (queueRequest cap s).2 with ⟨out, s2, tr⟩
    cases out with
    | expired =>
      rw [UnaryInterceptorClient, if_neg hq, hgl] at h
      simp at h
    | admitted b => exact ⟨b, s2, tr, rfl⟩
    | blocked =>
      rw [UnaryInterceptorClient, if_neg hq, hgl] at h
      simp at h

/-- Helper: when the enqueue check passes, the values the interceptor sends to
`outgoingCredits` before invoking the transport are exactly the waiting
loop's writes. -/
theorem UnaryInterceptorClient_gateWrites (uq ue cf : Bool) (cap : Nat) (exp : Int)
    (id : String) (obs : CallObs) (s : BWState) (out : LoopOutcome) (s2 : BWState)
    (tr : List Int)
    (hq : ¬(uq = true ∧ (queueRequest cap s).1 = false))
    (hgl : gateLoop ue exp obs.wakes (queueRequest cap s).2 = (out, s2, tr)) :
    (UnaryInterceptorClient uq ue cf cap exp id obs s).gateWrites = tr := by
  rw [UnaryInterceptorClient, if_neg hq, hgl]
  cases out with
  | expired => rfl
  | blocked => rfl
  | admitted b =>
    simp only
    split
    · split <;> rfl
    · rcases obs.creditsHeader with _ | c <;> rfl

/-- Helper: in an admitted run the interceptor invokes the transport, attaches
the client id together with the queue length sampled before its own dequeue,
and its final state's queue length is the post-admission length minus the one
token it dequeues. -/
theorem UnaryInterceptorClient_admitted_fields (uq ue cf : Bool) (cap : Nat) (exp : Int)
    (id : String) (obs : CallObs) (s : BWState) (b : Int) (s2 : BWState) (tr : List Int)
    (hq : ¬(uq = true ∧ (queueRequest cap s).1 = false))
    (hgl : gateLoop ue exp obs.wakes (queueRequest cap s).2 =
      (LoopOutcome.admitted b, s2, tr)) :
    (UnaryInterceptorClient uq ue cf cap exp id obs s).invoked = true ∧
    (UnaryInterceptorClient uq ue cf cap exp id obs s).metaSent =
      some (id, getDemand s2) ∧
    (UnaryInterceptorClient uq ue cf cap exp id obs s).finalState.pendingOutgoing =
      (dequeueRequest s2).2.pendingOutgoing := by
  rw [UnaryInterceptorClient, if_neg hq, hgl]
  simp only
  split
  · split
    · refine ⟨rfl, rfl, ?_⟩
      split <;> simp [unblockNoCreditBlock]
    · exact ⟨rfl, rfl, rfl⟩
  · rcases obs.creditsHeader with _ | c <;>
      exact ⟨rfl, rfl, by simp [unblockNoCreditBlock]⟩

/-- Helper: every value the interceptor sends to `outgoingCredits` after the
transport call is non-negative, provided the value it received from the
channel there was non-negative. -/
theorem UnaryInterceptorClient_postWrites_nonneg (uq ue cf : Bool) (cap : Nat) (exp : Int)
    (id : String) (obs : CallObs) (s : BWState) (hpost : 0 ≤ obs.postRead) :
    ∀ w ∈ (UnaryInterceptorClient uq ue cf cap exp id obs s).postWrites, 0 ≤ w := by
  by_cases hq : uq = true ∧ (queueRequest cap s).1 = false
  · rw [UnaryInterceptorClient, if_pos hq]
    simp
  · rcases hgl : gateLoop ue exp obs.wakes (queueRequest cap s).2 with ⟨out, s2, tr⟩
    rw [UnaryInterceptorClient, if_neg hq, hgl]
    cases out with
    | expired => simp
    | blocked => simp
    | admitted b =>
      simp only
      split
      · split
        · split
          · simp only [List.mem_singleton]
            rintro w rfl
            omega
          · simp
        · simp
      · rcases obs.creditsHeader with _ | c <;>
        · simp only [List.mem_singleton]
          rintro w rfl
          simp [le_max_iff]

/-- C1: every invocation of the client interceptor that reaches the transport
call decremented `outgoingCredits` by exactly one beforehand and was admitted
only on a strictly positive balance: the admitting wake-up read some balance
`b > 0` and wrote back `b - 1` as its final pre-invocation write, while every
earlier wake-up read a non-positive balance (zero being written back
unchanged) and wrote back `0`, looping to wait again. -/
theorem admitted_call_consumed_one_credit (uq ue cf : Bool) (cap : Nat) (exp : Int)
    (id : String) (obs : CallObs) (s : BWState)
    (h : (UnaryInterceptorClient uq ue cf cap exp id obs s).invoked = true) :
    ∃ pre o rest, obs.wakes = pre ++ o :: rest ∧ 0 < o.creditRead ∧
      (UnaryInterceptorClient uq ue cf cap exp id obs s).gateWrites =
        List.replicate pre.length 0 ++ [o.creditRead - 1] ∧
      ∀ p ∈ pre, p.creditRead ≤ 0 := by
  obtain ⟨hq, b, s2, tr, hgl⟩ :=
    UnaryInterceptorClient_invoked_cases uq ue cf cap exp id obs s h
  obtain ⟨hb, pre, o, rest, hws, hcr, htr, hpre⟩ :=
    gateLoop_admitted_shape ue exp obs.wakes _ b s2 tr hgl
  refine ⟨pre, o, rest, hws, hcr ▸ hb, ?_, hpre⟩
  rw [UnaryInterceptorClient_gateWrites uq ue cf cap exp id obs s _ s2 tr hq hgl, htr, hcr]

/-- Witness for C1 at a concrete input: a run whose first wake-up finds no
credit and whose second is admitted with balance 3 invokes the transport,
and its pre-invocation writes are `[0, 2]`. -/
theorem admitted_call_consumed_one_credit_witness :
    ∃ pre o rest,
      (CallObs.mk [GateObs.mk 5 0, GateObs.mk 6 3] false (some 4) false 2).wakes =
        pre ++ o :: rest ∧ 0 < o.creditRead ∧
      (UnaryInterceptorClient true true true 50 1000 "c"
        (CallObs.mk [GateObs.mk 5 0, GateObs.mk 6 3] false (some 4) false 2)
        (BWState.mk 0 3 false)).gateWrites =
        List.replicate pre.length 0 ++ [o.creditRead - 1] ∧
      ∀ p ∈ pre, p.creditRead ≤ 0 :=
  admitted_call_consumed_one_credit true true true 50 1000 "c"
    (CallObs.mk [GateObs.mk 5 0, GateObs.mk 6 3] false (some 4) false 2)
    (BWState.mk 0 3 false) (by decide)

/-- C2: `outgoingCredits` never goes negative through the client interceptor:
assuming every value it receives from the `outgoingCredits` channel is
non-negative, every value it sends back — after admission, after a zero
balance, after a failed call with credits-on-fail, and after ingesting or
defaulting the response's credit grant — is non-negative. -/
theorem outgoing_credit_writes_nonneg (uq ue cf : Bool) (cap : Nat) (exp : Int)
    (id : String) (obs : CallObs) (s : BWState)
    (hreads : ∀ o ∈ obs.wakes, 0 ≤ o.creditRead) (hpost : 0 ≤ obs.postRead) :
    ∀ w ∈ creditWrites (UnaryInterceptorClient uq ue cf cap exp id obs s), 0 ≤ w := by
  intro w hw
  rcases List.mem_append.mp hw with hw | hw
  · by_cases hq : uq = true ∧ (queueRequest cap s).1 = false
    · rw [UnaryInterceptorClient, if_pos hq] at hw
      simp at hw
    · rcases hgl : gateLoop ue exp obs.wakes (queueRequest cap s).2 with ⟨out, s2, tr⟩
      rw [UnaryInterceptorClient_gateWrites uq ue cf cap exp id obs s out s2 tr hq hgl] at hw
      refine gateLoop_writes_nonneg ue exp obs.wakes (queueRequest cap s).2 hreads w ?_
      rw [hgl]
      exact hw
  · exact UnaryInterceptorClient_postWrites_nonneg uq ue cf cap exp id obs s hpost w hw

/-- Witness for C2 at a concrete input: a failed call with credits-on-fail,
whose wake-ups read balances 0 and 1 and whose post-invocation read is 0,
writes only non-negative values. -/
theorem outgoing_credit_writes_nonneg_witness :
    (1 : Int) ∈ creditWrites (UnaryInterceptorClient true true true 50 1000 "c"
      (CallObs.mk [GateObs.mk 5 0, GateObs.mk 6 1] true none true 0)
      (BWState.mk 0 1 false)) ∧ (0 : Int) ≤ 1 :=
  ⟨by decide,
   outgoing_credit_writes_nonneg true true true 50 1000 "c"
    (CallObs.mk [GateObs.mk 5 0, GateObs.mk 6 1] true none true 0)
    (BWState.mk 0 1 false) (by decide) (by decide) 1 (by decide)⟩

/-- C3: when `pendingOutgoing` is full at entry (with the queue-length check,
whose flag lives outside this source file, modelled from the spec as
enabled), the interceptor immediately returns the queue-full
ResourceExhausted status: the transport is not invoked, nothing is sent to
`outgoingCredits`, and the state — in particular `outgoingCredits` — is
unchanged. -/
theorem queue_full_rejected_without_transport (ue cf : Bool) (cap : Nat) (exp : Int)
    (id : String) (obs : CallObs) (s : BWState) (hfull : cap ≤ s.pendingOutgoing) :
    (UnaryInterceptorClient useClientQueueLengthFlag ue cf cap exp id obs s).result =
      CallResult.queueFull ∧
    (UnaryInterceptorClient useClientQueueLengthFlag ue cf cap exp id obs s).invoked = false ∧
    creditWrites (UnaryInterceptorClient useClientQueueLengthFlag ue cf cap exp id obs s) = [] ∧
    (UnaryInterceptorClient useClientQueueLengthFlag ue cf cap exp id obs s).finalState = s := by
  have hq : queueRequest cap s = (false, s) := by
    rw [queueRequest, if_neg (by omega)]
  have hcond : useClientQueueLengthFlag = true ∧ (queueRequest cap s).1 = false := by
    rw [hq]
    exact ⟨rfl, rfl⟩
  rw [UnaryInterceptorClient, if_pos hcond]
  refine ⟨rfl, rfl, rfl, ?_⟩
  rw [hq]

/-- Witness for C3 at a concrete input: with capacity 2 and two requests
already queued, a call is rejected as queue-full, the transport is not
invoked, no credit write happens, and the state is unchanged. -/
theorem queue_full_rejected_without_transport_witness :
    (UnaryInterceptorClient useClientQueueLengthFlag true false 2 1000 "c"
      (CallObs.mk [GateObs.mk 5 3] false none false 0) (BWState.mk 2 7 true)).result =
      CallResult.queueFull ∧
    (UnaryInterceptorClient useClientQueueLengthFlag true false 2 1000 "c"
      (CallObs.mk [GateObs.mk 5 3] false none false 0) (BWState.mk 2 7 true)).invoked = false ∧
    creditWrites (UnaryInterceptorClient useClientQueueLengthFlag true false 2 1000 "c"
      (CallObs.mk [GateObs.mk 5 3] false none false 0) (BWState.mk 2 7 true)) = [] ∧
    (UnaryInterceptorClient useClientQueueLengthFlag true false 2 1000 "c"
      (CallObs.mk [GateObs.mk 5 3] false none false 0) (BWState.mk 2 7 true)).finalState =
      BWState.mk 2 7 true :=
  queue_full_rejected_without_transport true false 2 1000 "c"
    (CallObs.mk [GateObs.mk 5 3] false none false 0) (BWState.mk 2 7 true) (by decide)

/-- C4: with client expiration configured, a request whose elapsed wait at a
wake-up exceeds `clientExpiration` — every earlier wake-up having been within
the deadline and having found no credit — is dropped: its entry is dequeued
from `pendingOutgoing`, the wake signal is re-sent so the next waiter can
proceed, the expired ResourceExhausted status is returned, and the transport
is never invoked. -/
theorem expired_wait_dequeues_and_resignals (uq cf : Bool) (cap : Nat) (exp : Int)
    (id : String) (obs : CallObs) (s : BWState)
    (pre : List GateObs) (o : GateObs) (rest : List GateObs)
    (hwakes : obs.wakes = pre ++ o :: rest)
    (hroom : s.pendingOutgoing < cap)
    (ho : exp < o.timeTaken)
    (hpre : ∀ p ∈ pre, p.timeTaken ≤ exp ∧ p.creditRead ≤ 0) :
    (UnaryInterceptorClient uq true cf cap exp id obs s).result = CallResult.expired ∧
    (UnaryInterceptorClient uq true cf cap exp id obs s).invoked = false ∧
    (UnaryInterceptorClient uq true cf cap exp id obs s).finalState.noCreditBlocker = true ∧
    (UnaryInterceptorClient uq true cf cap exp id obs s).finalState.pendingOutgoing =
      s.pendingOutgoing := by
  have hq1 : queueRequest cap s =
      (true, { s with pendingOutgoing := s.pendingOutgoing + 1 }) := by
    rw [queueRequest, if_pos hroom]
  have hqn : ¬(uq = true ∧ (queueRequest cap s).1 = false) := by
    rw [hq1]
    simp
  obtain ⟨s', tr, hgl, hblk, hpend, _⟩ :=
    gateLoop_expired_run exp pre { s with pendingOutgoing := s.pendingOutgoing + 1 } o rest
      ho hpre
  rw [UnaryInterceptorClient, if_neg hqn, hq1, hwakes, hgl]
  exact ⟨rfl, rfl, hblk, by simpa using hpend⟩

/-- Witness for C4 at a concrete input: with a 10-microsecond expiration, a
request woken at 5 microseconds with no credit and again at 20 microseconds
is expired, dropped from the queue without invoking the transport, and the
wake signal is re-sent. -/
theorem expired_wait_dequeues_and_resignals_witness :
    (UnaryInterceptorClient true true false 50 10 "c"
      (CallObs.mk [GateObs.mk 5 0, GateObs.mk 20 4] false none false 0)
      (BWState.mk 0 0 false)).result = CallResult.expired ∧
    (UnaryInterceptorClient true true false 50 10 "c"
      (CallObs.mk [GateObs.mk 5 0, GateObs.mk 20 4] false none false 0)
      (BWState.mk 0 0 false)).invoked = false ∧
    (UnaryInterceptorClient true true false 50 10 "c"
      (CallObs.mk [GateObs.mk 5 0, GateObs.mk 20 4] false none false 0)
      (BWState.mk 0 0 false)).finalState.noCreditBlocker = true ∧
    (UnaryInterceptorClient true true false 50 10 "c"
      (CallObs.mk [GateObs.mk 5 0, GateObs.mk 20 4] false none false 0)
      (BWState.mk 0 0 false)).finalState.pendingOutgoing = (BWState.mk 0 0 false).pendingOutgoing :=
  expired_wait_dequeues_and_resignals true false 50 10 "c"
    (CallObs.mk [GateObs.mk 5 0, GateObs.mk 20 4] false none false 0)
    (BWState.mk 0 0 false) [GateObs.mk 5 0] (GateObs.mk 20 4) [] (by decide) (by decide)
    (by decide) (by decide)

/-- C5: for every admitted request that was enqueued, the outbound metadata
carries the client id together with a demand equal to the length of
`pendingOutgoing` sampled after admission and before the request's own entry
is dequeued, so the current request — whose entry raised the length to one
more than at entry — is still counted in the reported demand; the entry is
removed only afterwards, the final queue length returning to its entry
value. -/
theorem demand_counts_pending_request (uq ue cf : Bool) (cap : Nat) (exp : Int)
    (id : String) (obs : CallObs) (s : BWState)
    (hroom : s.pendingOutgoing < cap)
    (hinv : (UnaryInterceptorClient uq ue cf cap exp id obs s).invoked = true) :
    (UnaryInterceptorClient uq ue cf cap exp id obs s).metaSent =
      some (id, s.pendingOutgoing + 1) ∧
    0 < s.pendingOutgoing + 1 ∧
    (UnaryInterceptorClient uq ue cf cap exp id obs s).finalState.pendingOutgoing =
      s.pendingOutgoing := by
  obtain ⟨hq, b, s2, tr, hgl⟩ :=
    UnaryInterceptorClient_invoked_cases uq ue cf cap exp id obs s hinv
  have hq1 : queueRequest cap s =
      (true, { s with pendingOutgoing := s.pendingOutgoing + 1 }) := by
    rw [queueRequest, if_pos hroom]
  have hpend : s2.pendingOutgoing = s.pendingOutgoing + 1 := by
    have hp := gateLoop_admitted_pending ue exp obs.wakes (queueRequest cap s).2 b s2 tr hgl
    rw [hq1] at hp
    simpa using hp
  obtain ⟨_, hmeta, hfin⟩ :=
    UnaryInterceptorClient_admitted_fields uq ue cf cap exp id obs s b s2 tr hq hgl
  refine ⟨?_, by omega, ?_⟩
  · rw [hmeta, getDemand, hpend]
  · rw [hfin, dequeueRequest, if_pos (by omega)]
    simp [hpend]

/-- Witness for C5 at a concrete input: a call admitted from an empty queue
attaches demand 1 — its own pending entry — together with the client id, and
the queue is back to empty afterwards. -/
theorem demand_counts_pending_request_witness :
    (UnaryInterceptorClient true true false 50 1000 "c"
      (CallObs.mk [GateObs.mk 5 3] false (some 2) false 0)
      (BWState.mk 0 0 false)).metaSent = some ("c", (BWState.mk 0 0 false).pendingOutgoing + 1) ∧
    0 < (BWState.mk 0 0 false).pendingOutgoing + 1 ∧
    (UnaryInterceptorClient true true false 50 1000 "c"
      (CallObs.mk [GateObs.mk 5 3] false (some 2) false 0)
      (BWState.mk 0 0 false)).finalState.pendingOutgoing =
      (BWState.mk 0 0 false).pendingOutgoing :=
  demand_counts_pending_request true true false 50 1000 "c"
    (CallObs.mk [GateObs.mk 5 3] false (some 2) false 0)
    (BWState.mk 0 0 false) (by decide) (by decide)

end Breakwater
